import Mathlib

/-!
Verification development for the gemini-web-navigator repository.

The development shallowly embeds the two source files:
  * src/agent.py  — action model, decision engine (get_next_action and
    parse_computer_use_response), action executor (execute_action), and the
    step loop (run_navigator);
  * src/main.py   — the session stream adapter (run_agent) with its
    session-to-StopSignal registry.

External collaborators are modelled as oracles:
  * the Gemini model call is a function from the conversation to either an
    exception (Except.error) or a Response value;
  * the browser driver is a function from primitive calls to either an
    exception or unit; the executor additionally records the trace of
    primitive calls it issued;
  * wall-clock quantities (screenshots, elapsed milliseconds) are oracles
    indexed by the step number.

Python specifics kept by the embedding: in-place list mutation is modelled
by returning the final list alongside the result; statements that can raise
(indexing an empty candidates list, a null wheel delta, indexing a short
coordinate list) are modelled with Except.error; Python falsiness of 0 and
of the empty list in the expressions using the or operator is modelled by
py_or_int and py_or_list.
-/

namespace WebNav

-- ── Action model (src/agent.py lines 28-65) ──────────────────────────────────

def MAX_STEPS : Nat := 25

inductive ActionType where
  | click
  | type
  | scroll
  | navigate
  | wait
  | done
  | fail
  | screenshot
  | key
  | move_mouse
  | drag
  deriving DecidableEq, Repr

structure Action where
  type : ActionType
  x : Option Int := none
  y : Option Int := none
  text : Option String := none
  url : Option String := none
  direction : Option String := none
  amount : Option Int := none
  reason : Option String := none
  key : Option String := none
  coordinate : Option (List Int) := none
  start_coordinate : Option (List Int) := none
  deriving DecidableEq, Repr

structure StepResult where
  step : Nat
  screenshot_b64 : String
  action : Action
  success : Bool
  message : String
  elapsed_ms : Nat
  deriving DecidableEq, Repr

-- Python str(x) on an optional value prints None for null; used in f-strings.
def opt_str : Option String → String
  | some s => s
  | none => "None"

-- Python value or default: None and 0 are falsy.
def py_or_int : Option Int → Int → Int
  | some v, d => if v = 0 then d else v
  | none, d => d

-- Python value or default: None and the empty list are falsy.
def py_or_list : Option (List Int) → List Int → List Int
  | some xs, d => if xs = [] then d else xs
  | none, d => d

-- ── Browser driver collaborator (playwright primitives) ──────────────────────

inductive DriverCall where
  | mouseClick (x y : Int)
  | typeText (text : String) (delayMs : Nat)
  | keyPress (key : String)
  | mouseMove (x y : Int)
  | wheel (dx dy : Int)
  | gotoUrl (url : String) (timeoutMs : Nat)
  | mouseDown
  | mouseUp
  | sleepMs (ms : Nat)
  | waitLoadState (state : String) (timeoutMs : Nat)
  deriving DecidableEq, Repr

/-- A driver behaviour: each primitive call either succeeds or raises. -/
def Driver : Type := DriverCall → Except String Unit

/-- The always-succeeding driver. -/
def okDriver : Driver := fun _ => Except.ok ()

/-- Executor computations: they thread the trace of issued primitive calls
and may end in a raised exception. -/
def DriverM (α : Type) : Type := List DriverCall → Except String (α × List DriverCall)

instance : Monad DriverM where
  pure a := fun log => Except.ok (a, log)
  bind m f := fun log =>
    match m log with
    | Except.ok (a, log2) => f a log2
    | Except.error e => Except.error e

/-- Issue one primitive call against the driver, recording it in the trace. -/
def callPrim (d : Driver) (c : DriverCall) : DriverM Unit := fun log =>
  match d c with
  | Except.ok _ => Except.ok ((), log ++ [c])
  | Except.error e => Except.error e

/-- Lift a possibly-raising pure computation (argument evaluation). -/
def liftE {α : Type} (r : Except String α) : DriverM α := fun log =>
  match r with
  | Except.ok a => Except.ok (a, log)
  | Except.error e => Except.error e

/-- Accessing an optional int field that the driver primitive requires;
a null argument makes the primitive raise (src/agent.py passes it through). -/
def require_int (v : Option Int) (n : String) : Except String Int :=
  match v with
  | some i => Except.ok i
  | none => Except.error ("TypeError: " ++ n ++ " is None")

def require_str (v : Option String) (n : String) : Except String String :=
  match v with
  | some s => Except.ok s
  | none => Except.error ("TypeError: " ++ n ++ " is None")

/-- Python list indexing: out of range raises IndexError. -/
def list_item (xs : List Int) (i : Nat) : Except String Int :=
  match xs.get? i with
  | some v => Except.ok v
  | none => Except.error "IndexError: list index out of range"

/-- wait_for_navigation (src/agent.py lines 230-235): waits for
domcontentloaded with a 3000 ms timeout; its own try/except turns a failure
into a 0.5 s sleep, so it never raises. -/
def wait_for_navigation (d : Driver) : DriverM Unit := fun log =>
  match d (DriverCall.waitLoadState "domcontentloaded" 3000) with
  | Except.ok _ =>
      Except.ok ((), log ++ [DriverCall.waitLoadState "domcontentloaded" 3000])
  | Except.error _ =>
      Except.ok ((), log ++ [DriverCall.waitLoadState "domcontentloaded" 3000,
        DriverCall.sleepMs 500])

/-- Body of the try block of execute_action (src/agent.py lines 240-293),
one branch per action kind, issuing the same primitive sequences. -/
def execute_action_body (d : Driver) (a : Action) : DriverM (Bool × String) :=
  match a.type with
  | ActionType.click => do
      let x ← liftE (require_int a.x "x")
      let y ← liftE (require_int a.y "y")
      callPrim d (DriverCall.mouseClick x y)
      wait_for_navigation d
      pure (true, "Clicked at (" ++ toString x ++ ", " ++ toString y ++ ")")
  | ActionType.type => do
      let t ← liftE (require_str a.text "text")
      callPrim d (DriverCall.typeText t 50)
      pure (true, "Typed: " ++ t.take 50)
  | ActionType.key => do
      let k ← liftE (require_str a.key "key")
      callPrim d (DriverCall.keyPress k)
      wait_for_navigation d
      pure (true, "Key press: " ++ k)
  | ActionType.scroll => do
      let x := py_or_int a.x 640
      let y := py_or_int a.y 400
      let delta : Option Int :=
        if a.direction = some "down" then a.amount
        else some (-(py_or_int a.amount 300))
      callPrim d (DriverCall.mouseMove x y)
      let dv ← liftE (match delta with
        | some v => Except.ok v
        | none => Except.error "TypeError: wheel delta is None")
      callPrim d (DriverCall.wheel 0 dv)
      callPrim d (DriverCall.sleepMs 500)
      pure (true, "Scrolled " ++ opt_str a.direction ++ " " ++
        toString dv.natAbs ++ "px at (" ++ toString x ++ "," ++ toString y ++ ")")
  | ActionType.navigate => do
      let u ← liftE (require_str a.url "url")
      callPrim d (DriverCall.gotoUrl u 30000)
      pure (true, "Navigated to " ++ u)
  | ActionType.move_mouse => do
      let x ← liftE (require_int a.x "x")
      let y ← liftE (require_int a.y "y")
      callPrim d (DriverCall.mouseMove x y)
      pure (true, "Moved mouse to (" ++ toString x ++ ", " ++ toString y ++ ")")
  | ActionType.drag => do
      let s := py_or_list a.start_coordinate [0, 0]
      let e := py_or_list a.coordinate [0, 0]
      let sx ← liftE (list_item s 0)
      let sy ← liftE (list_item s 1)
      callPrim d (DriverCall.mouseMove sx sy)
      callPrim d DriverCall.mouseDown
      let tx ← liftE (list_item e 0)
      let ty ← liftE (list_item e 1)
      callPrim d (DriverCall.mouseMove tx ty)
      callPrim d DriverCall.mouseUp
      pure (true, "Dragged from " ++ toString s ++ " to " ++ toString e)
  | ActionType.screenshot => pure (true, "Screenshot taken")
  | ActionType.wait => do
      callPrim d (DriverCall.sleepMs 2000)
      pure (true, "Waited 2 seconds")
  | ActionType.done => pure (true, "Goal accomplished: " ++ opt_str a.reason)
  | ActionType.fail => pure (false, "Cannot complete: " ++ opt_str a.reason)

/-- execute_action (src/agent.py lines 238-297): runs the body under the
top-level try/except; a raised exception becomes (False, message with the
exception text). Returns the (success, message) pair and the trace of
driver primitives that were issued. -/
def execute_action (d : Driver) (a : Action) : (Bool × String) × List DriverCall :=
  match execute_action_body d a [] with
  | Except.ok (r, log) => (r, log)
  | Except.error e => ((false, "Action failed: " ++ e), [])

-- ── Gemini response model and decision engine (src/agent.py lines 70-218) ────

/-- A JSON-ish value appearing in tool-call arguments. Numeric strings and
nested structures are not needed by the repository paths and are not
modelled. -/
inductive ArgVal where
  | str (s : String)
  | num (n : Int)
  | list (xs : List Int)
  deriving DecidableEq, Repr

structure FunctionCall where
  name : String
  args : List (String × ArgVal)
  deriving DecidableEq, Repr

/-- One part of a genai Content: text, a function call, or inline image
data (the screenshot bytes are kept as their base64 form). -/
structure Part where
  text : Option String := none
  function_call : Option FunctionCall := none
  inline_image : Option String := none
  deriving DecidableEq, Repr

structure Content where
  role : String
  parts : List Part
  deriving DecidableEq, Repr

/-- finish_reason is kept as the name of the genai enum member. -/
structure Candidate where
  content : Content
  finish_reason : Option String := none
  deriving DecidableEq, Repr

structure Response where
  candidates : List Candidate
  deriving DecidableEq, Repr

def done_words : List String :=
  ["completed", "accomplished", "done", "finished", "found"]

def done_words_text : List String :=
  ["completed", "accomplished", "done", "finished"]

def fail_words : List String :=
  ["cannot", "unable", "blocked", "captcha", "login required"]

def is_char_prefix (w s : List Char) : Bool :=
  match w, s with
  | [], _ => true
  | _ :: _, [] => false
  | c :: w2, c2 :: s2 => c = c2 && is_char_prefix w2 s2

def is_char_infix (w : List Char) : List Char → Bool
  | [] => w.isEmpty
  | c :: rest => is_char_prefix w (c :: rest) || is_char_infix w rest

/-- Python: any(w in text_lower for w in words). -/
def contains_any (s : String) (ws : List String) : Bool :=
  ws.any (fun w => is_char_infix w.data s.toLower.data)

/-- The first loop of parse_computer_use_response (lines 134-138): on a
STOP or MAX_TOKENS finish reason, the first part with non-empty text that
contains completion language yields a done Action. -/
def scan_finish_done : List Part → Option Action
  | [] => none
  | p :: rest =>
    match p.text with
    | some t =>
      if t.isEmpty then scan_finish_done rest
      else if contains_any t done_words then
        some { type := ActionType.done, reason := some (t.take 200) }
      else scan_finish_done rest
    | none => scan_finish_done rest

/-- The function-call loop (lines 141-142): the first part carrying a
function call is dispatched. -/
def scan_function_call : List Part → Option FunctionCall
  | [] => none
  | p :: rest =>
    match p.function_call with
    | some fc => some fc
    | none => scan_function_call rest

/-- The trailing text loop (lines 209-215): the first part with non-empty
text whose lowercase form contains failure language yields fail, else
completion language yields done. -/
def scan_text_terminal : List Part → Option Action
  | [] => none
  | p :: rest =>
    match p.text with
    | some t =>
      if t.isEmpty then scan_text_terminal rest
      else if contains_any t fail_words then
        some { type := ActionType.fail, reason := some (t.take 200) }
      else if contains_any t done_words_text then
        some { type := ActionType.done, reason := some (t.take 200) }
      else scan_text_terminal rest
    | none => scan_text_terminal rest

def lookup_arg (args : List (String × ArgVal)) (k : String) : Option ArgVal :=
  match args with
  | [] => none
  | (k2, v) :: rest => if k2 = k then some v else lookup_arg rest k

/-- args.get(key, default-string) where the code expects a string. -/
def str_arg (v : Option ArgVal) (d : String) : String :=
  match v with
  | some (ArgVal.str s) => s
  | some (ArgVal.num n) => toString n
  | some (ArgVal.list xs) => toString xs
  | none => d

/-- args.get(key, default-int) followed by int(...): a list argument makes
int() raise. -/
def int_arg (v : Option ArgVal) (d : Int) : Except String Int :=
  match v with
  | some (ArgVal.num n) => Except.ok n
  | some (ArgVal.str _) => Except.error "ValueError: invalid literal for int()"
  | some (ArgVal.list _) => Except.error "TypeError: int() argument must not be a list"
  | none => Except.ok d

/-- args.get(key, default-list) where the code stores the raw list. A
present non-list value is kept as the default (such a value is stored raw
by Python and is not representable here; no repository path produces it). -/
def list_arg (v : Option ArgVal) (d : List Int) : List Int :=
  match v with
  | some (ArgVal.list xs) => xs
  | some _ => d
  | none => d

/-- The coordinate pattern of the click/scroll/move_mouse branches:
coord = args.get(key, df); x = int(coord[0]) if coord else fx; likewise y.
A one-element list raises IndexError at coord[1]; a present non-list value
makes the indexing or int() raise. -/
def extract_coord (v : Option ArgVal) (df : List Int) (fx fy : Int) :
    Except String (Int × Int) :=
  match v with
  | some (ArgVal.str _) => Except.error "ValueError: invalid literal for int()"
  | some (ArgVal.num _) => Except.error "TypeError: int object is not subscriptable"
  | some (ArgVal.list xs) =>
    match xs with
    | [] => Except.ok (fx, fy)
    | [x0] =>
      match x0 with
      | _ => Except.error "IndexError: list index out of range"
    | x0 :: y0 :: _ => Except.ok (x0, y0)
  | none =>
    match df with
    | [] => Except.ok (fx, fy)
    | [_] => Except.error "IndexError: list index out of range"
    | x0 :: y0 :: _ => Except.ok (x0, y0)

/-- Dispatch on the tool name (lines 147-206). -/
def dispatch_call (fc : FunctionCall) : Except String Action :=
  let args := fc.args
  if fc.name = "computer_use_click" then
    match extract_coord (lookup_arg args "coordinate") [0, 0] 0 0 with
    | Except.error e => Except.error e
    | Except.ok (x, y) =>
      Except.ok
        { type := ActionType.click, x := some x, y := some y,
          reason := some (str_arg (lookup_arg args "reason") "click") }
  else if fc.name = "computer_use_type" then
    Except.ok
      { type := ActionType.type,
        text := some (str_arg (lookup_arg args "text") ""),
        reason := some "type text" }
  else if fc.name = "computer_use_scroll" then
    match extract_coord (lookup_arg args "coordinate") [640, 400] 640 400 with
    | Except.error e => Except.error e
    | Except.ok (x, y) =>
      match int_arg (lookup_arg args "amount") 3 with
      | Except.error e => Except.error e
      | Except.ok n =>
        Except.ok
          { type := ActionType.scroll, x := some x, y := some y,
            direction := some (str_arg (lookup_arg args "direction") "down"),
            amount := some (n * 100), reason := some "scroll" }
  else if fc.name = "computer_use_key" then
    Except.ok
      { type := ActionType.key,
        key := some (str_arg (lookup_arg args "key") ""),
        reason := some "key press" }
  else if fc.name = "computer_use_move_mouse" then
    match extract_coord (lookup_arg args "coordinate") [640, 400] 640 400 with
    | Except.error e => Except.error e
    | Except.ok (x, y) =>
      Except.ok
        { type := ActionType.move_mouse, x := some x, y := some y,
          reason := some "move mouse" }
  else if fc.name = "computer_use_screenshot" then
    Except.ok { type := ActionType.screenshot, reason := some "take screenshot" }
  else if fc.name = "computer_use_navigate" then
    Except.ok
      { type := ActionType.navigate,
        url := some (str_arg (lookup_arg args "url") ""),
        reason := some "navigate" }
  else if fc.name = "computer_use_drag" then
    Except.ok
      { type := ActionType.drag,
        start_coordinate := some (list_arg (lookup_arg args "startCoordinate") [0, 0]),
        coordinate := some (list_arg (lookup_arg args "endCoordinate") [0, 0]),
        reason := some "drag" }
  else
    Except.ok
      { type := ActionType.wait,
        reason := some ("unknown action: " ++ fc.name) }

/-- parse_computer_use_response (src/agent.py lines 125-218). Raising
statements are modelled with Except.error; candidates[0] on an empty list
raises IndexError. -/
def parse_computer_use_response (response : Response) : Except String Action :=
  match response.candidates with
  | [] => Except.error "IndexError: list index out of range"
  | candidate :: _ =>
    let parts := candidate.content.parts
    let finish_done : Option Action :=
      match candidate.finish_reason with
      | some fr =>
        if fr = "STOP" ∨ fr = "MAX_TOKENS" then scan_finish_done parts else none
      | none => none
    match finish_done with
    | some a => Except.ok a
    | none =>
      match scan_function_call parts with
      | some fc => dispatch_call fc
      | none =>
        match scan_text_terminal parts with
        | some a => Except.ok a
        | none =>
          Except.ok
            { type := ActionType.wait,
              reason := some "waiting for model direction" }

def first_turn_text (goal : String) : String :=
  "Goal: " ++ goal ++
    "\n\nPlease analyze this screenshot and take the next action to accomplish the goal."

def later_turn_text : String :=
  "Here is the current state of the browser. Continue working toward the goal."

/-- The user turn appended on every call (lines 84-100): the screenshot
part plus the goal text on the first step, a continuation text afterwards. -/
def user_turn (screenshot_b64 goal : String) (conversation : List Content) : Content :=
  { role := "user",
    parts := [ { inline_image := some screenshot_b64 },
               { text := some (if conversation.isEmpty then first_turn_text goal
                               else later_turn_text) } ] }

/-- get_next_action (src/agent.py lines 70-122). The network call is the
api oracle; an Except.error from it models the caught exception of lines
102-115. The returned pair carries the outcome (Except.error models an
uncaught exception propagating to the caller) together with the final
state of the conversation list, which the source mutates in place. The
unused history parameter of the source is omitted. -/
def get_next_action (screenshot_b64 goal : String) (conversation : List Content)
    (api : List Content → Except String Response) :
    Except String Action × List Content :=
  let conv1 := conversation ++ [user_turn screenshot_b64 goal conversation]
  match api conv1 with
  | Except.error e =>
    (Except.ok
       { type := ActionType.fail,
         reason := some ("Gemini API error: " ++ e) }, conv1)
  | Except.ok response =>
    match response.candidates with
    | [] => (Except.error "IndexError: list index out of range", conv1)
    | candidate :: _ =>
      let conv2 := conv1 ++ [candidate.content]
      match parse_computer_use_response response with
      | Except.error e => (Except.error e, conv2)
      | Except.ok a => (Except.ok a, conv2)

-- ── Step loop (src/agent.py lines 302-376) ───────────────────────────────────

/-- The StepResult assembled in iteration i of the loop (lines 338-359).
The decided action, the execution outcome, the screenshot and the elapsed
time are given by oracles indexed with the step number: dec stands for the
action get_next_action returns at that step, ex for execute_action against
the live page, shot for take_screenshot and elms for the measured wall
clock. -/
def mk_step_result (dec : Nat → Action) (ex : Action → Bool × String)
    (shot : Nat → String) (elms : Nat → Nat) (i : Nat) : StepResult :=
  { step := i, screenshot_b64 := shot i, action := dec i,
    success := (ex (dec i)).1, message := (ex (dec i)).2, elapsed_ms := elms i }

/-- The for-loop of run_navigator (lines 333-374): fuel counts the
remaining iterations of range(1, MAX_STEPS + 1) and step is the loop
variable. The stop event is observed at the top of each iteration; flag
gives its value at the check of the given step. A done or fail action
breaks the loop right after its StepResult is yielded. The backoff sleep
of lines 373-374 produces no StepResult and is not observable here. -/
def navSteps (dec : Nat → Action) (ex : Action → Bool × String)
    (shot : Nat → String) (elms : Nat → Nat) (flag : Nat → Bool) :
    Nat → Nat → List StepResult
  | 0, _ => []
  | fuel + 1, step =>
    if flag step then []
    else if (dec step).type = ActionType.done ∨ (dec step).type = ActionType.fail then
      [mk_step_result dec ex shot elms step]
    else
      mk_step_result dec ex shot elms step ::
        navSteps dec ex shot elms flag fuel (step + 1)

/-- run_navigator (src/agent.py lines 302-376) as the sequence of
StepResults it yields. -/
def run_navigator (dec : Nat → Action) (ex : Action → Bool × String)
    (shot : Nat → String) (elms : Nat → Nat) (flag : Nat → Bool) :
    List StepResult :=
  navSteps dec ex shot elms flag MAX_STEPS 1

-- ── Session stream adapter (src/main.py lines 57-120) ────────────────────────

inductive Event where
  | session (id : String)
  | step (r : StepResult)
  | done (message : Option String)
  | error (message : Option String)
  | stopped
  deriving DecidableEq, Repr

/-- The interleaving of run_navigator with the adapter loop of run_agent
(src/main.py lines 79-108). The stop event is a monotone flag read at one
check per suspension round: the check at the top of a navigator iteration
for step s is number 2*(s-1), and the adapter check made after receiving
the StepResult of step s (line 87) is number 2*s-1; flag gives the value
read at each check. When the navigator sees the flag it breaks, the async
for ends and the stream ends with no further event; when the adapter sees
it, a stopped event is emitted and the step event of the result just
received is dropped. Otherwise the step event is emitted, followed by a
done or error event when the action kind is done or fail. -/
def streamLoop (dec : Nat → Action) (ex : Action → Bool × String)
    (shot : Nat → String) (elms : Nat → Nat) (flag : Nat → Bool) :
    Nat → Nat → Nat → List Event
  | 0, _, _ => []
  | fuel + 1, step, chk =>
    if flag chk then []
    else if flag (chk + 1) then [Event.stopped]
    else
      Event.step (mk_step_result dec ex shot elms step) ::
        (if (dec step).type = ActionType.done then [Event.done (dec step).reason]
         else if (dec step).type = ActionType.fail then [Event.error (dec step).reason]
         else streamLoop dec ex shot elms flag fuel (step + 1) (chk + 2))

/-- The event stream of one run: the session event first (line 77), then
the interleaved loop. -/
def stream_events (sid : String) (dec : Nat → Action) (ex : Action → Bool × String)
    (shot : Nat → String) (elms : Nat → Nat) (flag : Nat → Bool) : List Event :=
  Event.session sid :: streamLoop dec ex shot elms flag MAX_STEPS 1 0

/-- run_agent (src/main.py lines 57-120) from the registration of the
session onward: the session id is inserted in the _stop_events registry
(line 72), the stream body runs inside try/except/finally, and the finally
clause removes the registration (line 114). An unexpected exception in the
body is modelled by crash = some (n, msg): the generator stops after its
first n events and the except clause appends a generic error event (lines
110-111). The result is the emitted events and the final registry. -/
def run_agent (sid : String) (reg : List String) (dec : Nat → Action)
    (ex : Action → Bool × String) (shot : Nat → String) (elms : Nat → Nat)
    (flag : Nat → Bool) (crash : Option (Nat × String)) :
    List Event × List String :=
  let reg1 := if sid ∈ reg then reg else reg ++ [sid]
  let events :=
    match crash with
    | none => stream_events sid dec ex shot elms flag
    | some (n, msg) =>
      (stream_events sid dec ex shot elms flag).take n ++ [Event.error (some msg)]
  (events, reg1.filter (fun s2 => s2 != sid))

-- ── Concrete behaviours used by witnesses and counterexamples ────────────────

def constExec : Action → Bool × String := fun _ => (true, "ok")

def constShot : Nat → String := fun _ => "img"

def constElms : Nat → Nat := fun _ => 0

def noStop : Nat → Bool := fun _ => false

def waitAct : Action := { type := ActionType.wait }

def doneAct : Action := { type := ActionType.done, reason := some "goal reached" }

def failAct : Action := { type := ActionType.fail, reason := some "cannot proceed" }

def badDriver : Driver := fun _ => Except.error "boom"

/-- A stop signal first observed as set at check number 2, that is at the
top of the navigator iteration for step 2. -/
def stopAfterStep1 : Nat → Bool := fun c => decide (2 ≤ c)

def waitStep1 : StepResult := mk_step_result (fun _ => waitAct) constExec constShot constElms 1

def emptyApi : List Content → Except String Response :=
  fun _ => Except.ok { candidates := [] }

-- ── Executor claims ──────────────────────────────────────────────────────────

/-- C6: execute_action never raises past its boundary: whenever the body of
its try block raises (in particular when a driver primitive raises), the
exception is caught and the executor returns success = false with a message
containing the exception text. -/
theorem executor_catches_driver_errors (d : Driver) (a : Action) (e : String)
    (h : execute_action_body d a [] = Except.error e) :
    execute_action d a = ((false, "Action failed: " ++ e), []) ∧
    ∃ p, "Action failed: " ++ e = p ++ e := by
  constructor
  · simp only [execute_action, h]
  · exact ⟨"Action failed: ", rfl⟩

theorem executor_catches_driver_errors_witness :
    execute_action badDriver waitAct = ((false, "Action failed: boom"), []) :=
  (executor_catches_driver_errors badDriver waitAct "boom" rfl).1

/-- C7: a scroll Action with direction up and amount 300 issues the wheel
delta minus 300; with direction down and amount 300 it issues plus 300. -/
theorem scroll_wheel_delta_sign (a : Action)
    (hs : a.type = ActionType.scroll) (ham : a.amount = some 300) :
    (a.direction = some "up" →
      DriverCall.wheel 0 (-300) ∈ (execute_action okDriver a).2) ∧
    (a.direction = some "down" →
      DriverCall.wheel 0 300 ∈ (execute_action okDriver a).2) := by
  obtain ⟨ty, ax, ay, atext, aurl, adir, aamt, ars, ak, ac, asc⟩ := a
  dsimp only at hs ham
  subst hs
  subst ham
  constructor
  · intro hd
    dsimp only at hd
    subst hd
    show DriverCall.wheel 0 (-300) ∈
      [DriverCall.mouseMove (py_or_int ax 640) (py_or_int ay 400),
       DriverCall.wheel 0 (-300), DriverCall.sleepMs 500]
    simp
  · intro hd
    dsimp only at hd
    subst hd
    show DriverCall.wheel 0 300 ∈
      [DriverCall.mouseMove (py_or_int ax 640) (py_or_int ay 400),
       DriverCall.wheel 0 300, DriverCall.sleepMs 500]
    simp

theorem scroll_wheel_delta_sign_witness :
    DriverCall.wheel 0 (-300) ∈
      (execute_action okDriver
        { type := ActionType.scroll, direction := some "up", amount := some 300 }).2 :=
  (scroll_wheel_delta_sign
    { type := ActionType.scroll, direction := some "up", amount := some 300 }
    rfl rfl).1 rfl

/-- C3 counterexample: a scroll Action with direction unset and amount 300
issues the wheel delta minus 300, a negative (upward) delta — not the
positive (downward) delta the claim states. -/
theorem scroll_unset_direction_cex :
    (execute_action okDriver { type := ActionType.scroll, amount := some 300 }).2 =
      [DriverCall.mouseMove 640 400, DriverCall.wheel 0 (-300),
       DriverCall.sleepMs 500] ∧
    (-300 : Int) < 0 := ⟨rfl, by decide⟩

/-- C3 amended: a scroll with direction unset is treated as up: with amount
also unset the executor issues the wheel delta minus 300 (the 300 default
applies only on the non-down branch); with direction down and amount unset
the amount is not defaulted — the wheel call raises on the null delta and
the executor reports a failed execution. -/
theorem scroll_unset_direction_defaults (a b : Action)
    (hsa : a.type = ActionType.scroll) (hda : a.direction = none)
    (hma : a.amount = none)
    (hsb : b.type = ActionType.scroll) (hdb : b.direction = some "down")
    (hmb : b.amount = none) :
    DriverCall.wheel 0 (-300) ∈ (execute_action okDriver a).2 ∧
    (execute_action okDriver b).1 =
      (false, "Action failed: TypeError: wheel delta is None") := by
  obtain ⟨ty, ax, ay, atext, aurl, adir, aamt, ars, ak, ac, asc⟩ := a
  obtain ⟨ty2, bx, by2, btext, burl, bdir, bamt, brs, bk, bc, bsc⟩ := b
  dsimp only at hsa hda hma hsb hdb hmb
  subst hsa; subst hda; subst hma; subst hsb; subst hdb; subst hmb
  constructor
  · show DriverCall.wheel 0 (-300) ∈
      [DriverCall.mouseMove (py_or_int ax 640) (py_or_int ay 400),
       DriverCall.wheel 0 (-300), DriverCall.sleepMs 500]
    simp
  · rfl

theorem scroll_unset_direction_defaults_witness :
    DriverCall.wheel 0 (-300) ∈
      (execute_action okDriver { type := ActionType.scroll }).2 :=
  (scroll_unset_direction_defaults
    { type := ActionType.scroll }
    { type := ActionType.scroll, direction := some "down" }
    rfl rfl rfl rfl rfl rfl).1

-- ── Step loop lemmas ─────────────────────────────────────────────────────────

lemma navSteps_length_le (dec : Nat → Action) (ex : Action → Bool × String)
    (shot : Nat → String) (elms : Nat → Nat) (flag : Nat → Bool) :
    ∀ fuel st, (navSteps dec ex shot elms flag fuel st).length ≤ fuel := by
  intro fuel
  induction fuel with
  | zero => intro st; simp [navSteps]
  | succ n ih =>
    intro st
    rw [navSteps]
    by_cases h1 : flag st = true
    · rw [if_pos h1]; simp
    · rw [if_neg h1]
      by_cases h2 : (dec st).type = ActionType.done ∨ (dec st).type = ActionType.fail
      · rw [if_pos h2]; simp
      · rw [if_neg h2]
        have := ih (st + 1)
        simp only [List.length_cons]
        omega

lemma navSteps_mem (dec : Nat → Action) (ex : Action → Bool × String)
    (shot : Nat → String) (elms : Nat → Nat) (flag : Nat → Bool) :
    ∀ fuel st r, r ∈ navSteps dec ex shot elms flag fuel st →
      ∃ i, r = mk_step_result dec ex shot elms i := by
  intro fuel
  induction fuel with
  | zero => intro st r h; simp [navSteps] at h
  | succ n ih =>
    intro st r h
    rw [navSteps] at h
    by_cases h1 : flag st = true
    · rw [if_pos h1] at h; simp at h
    · rw [if_neg h1] at h
      by_cases h2 : (dec st).type = ActionType.done ∨ (dec st).type = ActionType.fail
      · rw [if_pos h2] at h
        simp at h
        exact ⟨st, h⟩
      · rw [if_neg h2] at h
        rcases List.mem_cons.mp h with h3 | h3
        · exact ⟨st, h3⟩
        · exact ih (st + 1) r h3

lemma navSteps_full_length (dec : Nat → Action) (ex : Action → Bool × String)
    (shot : Nat → String) (elms : Nat → Nat) (flag : Nat → Bool)
    (hnt : ∀ i, (dec i).type ≠ ActionType.done ∧ (dec i).type ≠ ActionType.fail)
    (hflag : ∀ i, flag i = false) :
    ∀ fuel st, (navSteps dec ex shot elms flag fuel st).length = fuel := by
  intro fuel
  induction fuel with
  | zero => intro st; simp [navSteps]
  | succ n ih =>
    intro st
    rw [navSteps, if_neg (by simp [hflag st]),
      if_neg (by have := hnt st; tauto)]
    simp [ih (st + 1)]

lemma navSteps_get_step (dec : Nat → Action) (ex : Action → Bool × String)
    (shot : Nat → String) (elms : Nat → Nat) (flag : Nat → Bool) :
    ∀ fuel st i r, (navSteps dec ex shot elms flag fuel st).get? i = some r →
      r.step = st + i := by
  intro fuel
  induction fuel with
  | zero => intro st i r h; simp [navSteps] at h
  | succ n ih =>
    intro st i r h
    rw [navSteps] at h
    by_cases h1 : flag st = true
    · rw [if_pos h1] at h; simp at h
    · rw [if_neg h1] at h
      by_cases h2 : (dec st).type = ActionType.done ∨ (dec st).type = ActionType.fail
      · rw [if_pos h2] at h
        cases i with
        | zero =>
          simp at h
          rw [← h, mk_step_result]
          rfl
        | succ j => simp at h
      · rw [if_neg h2] at h
        cases i with
        | zero =>
          simp at h
          rw [← h, mk_step_result]
          rfl
        | succ j =>
          simp only [List.get?_cons_succ] at h
          have := ih (st + 1) j r h
          omega

lemma navSteps_terminal_last (dec : Nat → Action) (ex : Action → Bool × String)
    (shot : Nat → String) (elms : Nat → Nat) (flag : Nat → Bool) :
    ∀ fuel st i r, (navSteps dec ex shot elms flag fuel st).get? i = some r →
      (r.action.type = ActionType.done ∨ r.action.type = ActionType.fail) →
      i + 1 = (navSteps dec ex shot elms flag fuel st).length := by
  intro fuel
  induction fuel with
  | zero => intro st i r h hterm; simp [navSteps] at h
  | succ n ih =>
    intro st i r h hterm
    rw [navSteps] at h ⊢
    by_cases h1 : flag st = true
    · rw [if_pos h1] at h; simp at h
    · rw [if_neg h1] at h ⊢
      by_cases h2 : (dec st).type = ActionType.done ∨ (dec st).type = ActionType.fail
      · rw [if_pos h2] at h ⊢
        cases i with
        | zero => simp
        | succ j => simp at h
      · rw [if_neg h2] at h ⊢
        cases i with
        | zero =>
          simp at h
          rw [← h, mk_step_result] at hterm
          exact absurd hterm h2
        | succ j =>
          simp only [List.get?_cons_succ] at h
          have := ih (st + 1) j r h hterm
          simp only [List.length_cons]
          omega

-- ── Step loop claims ─────────────────────────────────────────────────────────

/-- C4: every run emits at most 25 StepResults; when the decision engine
never returns done or fail (and no stop is requested) the loop runs to the
ceiling, emitting exactly 25 results none of which is an explicit fail. -/
theorem step_ceiling (dec : Nat → Action) (ex : Action → Bool × String)
    (shot : Nat → String) (elms : Nat → Nat) (flag : Nat → Bool) :
    (run_navigator dec ex shot elms flag).length ≤ MAX_STEPS ∧
    ((∀ i, (dec i).type ≠ ActionType.done ∧ (dec i).type ≠ ActionType.fail) →
      (∀ i, flag i = false) →
      (run_navigator dec ex shot elms flag).length = MAX_STEPS ∧
      ∀ r ∈ run_navigator dec ex shot elms flag,
        r.action.type ≠ ActionType.fail) := by
  constructor
  · exact navSteps_length_le dec ex shot elms flag MAX_STEPS 1
  · intro hnt hflag
    constructor
    · exact navSteps_full_length dec ex shot elms flag hnt hflag MAX_STEPS 1
    · intro r hr
      obtain ⟨i, hi⟩ := navSteps_mem dec ex shot elms flag MAX_STEPS 1 r hr
      rw [hi, mk_step_result]
      exact (hnt i).2

theorem step_ceiling_witness :
    (run_navigator (fun _ => waitAct) constExec constShot constElms noStop).length =
      MAX_STEPS :=
  ((step_ceiling (fun _ => waitAct) constExec constShot constElms noStop).2
    (fun _ => ⟨by decide, by decide⟩) (fun _ => rfl)).1

/-- C5: once a StepResult whose action kind is done or fail is emitted, it
is the last one of the run — no later StepResult is emitted. -/
theorem terminal_is_last (dec : Nat → Action) (ex : Action → Bool × String)
    (shot : Nat → String) (elms : Nat → Nat) (flag : Nat → Bool)
    (i : Nat) (r : StepResult)
    (h : (run_navigator dec ex shot elms flag).get? i = some r)
    (hterm : r.action.type = ActionType.done ∨ r.action.type = ActionType.fail) :
    i + 1 = (run_navigator dec ex shot elms flag).length :=
  navSteps_terminal_last dec ex shot elms flag MAX_STEPS 1 i r h hterm

theorem terminal_is_last_witness :
    0 + 1 =
      (run_navigator (fun _ => failAct) constExec constShot constElms noStop).length :=
  terminal_is_last (fun _ => failAct) constExec constShot constElms noStop 0
    (mk_step_result (fun _ => failAct) constExec constShot constElms 1)
    rfl (Or.inr rfl)

/-- C8: within one run the step fields of the emitted StepResults are
1, 2, 3, ...: the result at position i carries step index i + 1. -/
theorem step_indices_consecutive (dec : Nat → Action) (ex : Action → Bool × String)
    (shot : Nat → String) (elms : Nat → Nat) (flag : Nat → Bool)
    (i : Nat) (r : StepResult)
    (h : (run_navigator dec ex shot elms flag).get? i = some r) :
    r.step = i + 1 := by
  have := navSteps_get_step dec ex shot elms flag MAX_STEPS 1 i r h
  omega

theorem step_indices_consecutive_witness :
    (mk_step_result (fun _ => doneAct) constExec constShot constElms 1).step = 0 + 1 :=
  step_indices_consecutive (fun _ => doneAct) constExec constShot constElms noStop 0
    (mk_step_result (fun _ => doneAct) constExec constShot constElms 1) rfl

-- ── Stream adapter lemmas ────────────────────────────────────────────────────

/-- When the stop flag is first read as set at the navigator check for step
k + 1 (check number 2k), the interleaved stream from step s on is exactly
the step events of steps s, s + 1, ... bounded by the fuel and by k. -/
lemma streamLoop_window (dec : Nat → Action) (ex : Action → Bool × String)
    (shot : Nat → String) (elms : Nat → Nat) (flag : Nat → Bool) (k : Nat)
    (hfalse : ∀ c, c < 2 * k → flag c = false)
    (htrue : flag (2 * k) = true)
    (hnt : ∀ i, 1 ≤ i → i ≤ k →
      ¬((dec i).type = ActionType.done ∨ (dec i).type = ActionType.fail)) :
    ∀ fuel s, 1 ≤ s → s ≤ k + 1 →
      streamLoop dec ex shot elms flag fuel s (2 * (s - 1)) =
        (List.range' s (min fuel (k + 1 - s))).map
          (fun i => Event.step (mk_step_result dec ex shot elms i)) := by
  intro fuel
  induction fuel with
  | zero =>
    intro s h1 h2
    simp [streamLoop]
  | succ n ih =>
    intro s h1 h2
    by_cases hsk : s = k + 1
    · subst hsk
      have h2k : 2 * (k + 1 - 1) = 2 * k := by omega
      rw [streamLoop, h2k, if_pos htrue]
      have h0 : k + 1 - (k + 1) = 0 := by omega
      rw [h0]
      simp
    · have hsk2 : s ≤ k := by omega
      have hf1 : flag (2 * (s - 1)) = false := hfalse _ (by omega)
      have hf2 : flag (2 * (s - 1) + 1) = false := hfalse _ (by omega)
      have hnts := hnt s h1 hsk2
      have hd : ¬((dec s).type = ActionType.done) := fun hh => hnts (Or.inl hh)
      have hf : ¬((dec s).type = ActionType.fail) := fun hh => hnts (Or.inr hh)
      rw [streamLoop, if_neg (by simp [hf1]), if_neg (by simp [hf2]),
        if_neg hd, if_neg hf]
      have harg : 2 * (s - 1) + 2 = 2 * ((s + 1) - 1) := by omega
      rw [harg, ih (s + 1) (by omega) (by omega)]
      have hmin : min (n + 1) (k + 1 - s) = min n (k + 1 - (s + 1)) + 1 := by
        rcases Nat.le_total n (k + 1 - (s + 1)) with hle | hle
        · rw [Nat.min_eq_left hle, Nat.min_eq_left (by omega)]
        · rw [Nat.min_eq_right hle, Nat.min_eq_right (by omega)]
          omega
      rw [hmin, List.range'_succ]
      simp

-- ── Stream adapter claims ────────────────────────────────────────────────────

/-- C2 counterexample: with the stop signal set after the step 1 events
were emitted and before step 2 began (it is first read as set at check
number 2, the navigator check for step 2), the stream contains the step 1
event but no stopped event at all, contradicting the claim that a stopped
event follows the last step event. -/
theorem stop_between_checks_cex :
    stopAfterStep1 0 = false ∧ stopAfterStep1 1 = false ∧ stopAfterStep1 2 = true ∧
    Event.step waitStep1 ∈
      stream_events "cex" (fun _ => waitAct) constExec constShot constElms stopAfterStep1 ∧
    waitStep1.step = 1 ∧
    Event.stopped ∉
      stream_events "cex" (fun _ => waitAct) constExec constShot constElms stopAfterStep1 := by
  decide

/-- C2 amended: if the StopSignal becomes set after the adapter forwarded
the step k event and before the navigator check for step k + 1 (the signal
reads false at check 2(k-1)+1 and true at check 2k), then no step event
with index k + 1 or greater is emitted — but the stream ends with no
stopped event: the navigator breaks at the top of iteration k + 1 and the
adapter loop simply ends (a stopped event is emitted only when the signal
is first observed at an adapter check between receiving a result and
forwarding it). -/
theorem stop_window_no_stopped_event (sid : String) (dec : Nat → Action)
    (ex : Action → Bool × String) (shot : Nat → String) (elms : Nat → Nat)
    (flag : Nat → Bool) (k : Nat)
    (hmono : ∀ i j, i ≤ j → flag i = true → flag j = true)
    (hk1 : 1 ≤ k) (hk25 : k ≤ MAX_STEPS)
    (hfalse : flag (2 * (k - 1) + 1) = false)
    (htrue : flag (2 * k) = true)
    (hnt : ∀ i, 1 ≤ i → i ≤ k →
      (dec i).type ≠ ActionType.done ∧ (dec i).type ≠ ActionType.fail) :
    (∀ r, Event.step r ∈ stream_events sid dec ex shot elms flag → r.step ≤ k) ∧
    (∃ r, Event.step r ∈ stream_events sid dec ex shot elms flag ∧ r.step = k) ∧
    Event.stopped ∉ stream_events sid dec ex shot elms flag := by
  have hfalse2 : ∀ c, c < 2 * k → flag c = false := by
    intro c hc
    cases hcc : flag c with
    | false => rfl
    | true =>
      have h2 := hmono c (2 * (k - 1) + 1) (by omega) hcc
      rw [hfalse] at h2
      simp at h2
  have heq := streamLoop_window dec ex shot elms flag k hfalse2 htrue
    (fun i hi1 hi2 => by have := hnt i hi1 hi2; tauto)
    MAX_STEPS 1 (by omega) (by omega)
  have hn1 : 2 * (1 - 1) = 0 := by omega
  have hn2 : k + 1 - 1 = k := by omega
  rw [hn1, hn2, Nat.min_eq_right hk25] at heq
  refine ⟨?_, ?_, ?_⟩
  · intro r hr
    rw [stream_events, heq] at hr
    rcases List.mem_cons.mp hr with h3 | h3
    · simp at h3
    · obtain ⟨i, hi, hstep⟩ := List.mem_map.mp h3
      have hik : i ≤ k := by
        have := List.mem_range'_1.mp hi
        omega
      have hri : mk_step_result dec ex shot elms i = r := by
        injection hstep
      rw [← hri, mk_step_result]
      exact hik
  · refine ⟨mk_step_result dec ex shot elms k, ?_, rfl⟩
    rw [stream_events, heq]
    refine List.mem_cons_of_mem _ (List.mem_map.mpr ⟨k, ?_, rfl⟩)
    exact List.mem_range'_1.mpr ⟨hk1, by omega⟩
  · rw [stream_events, heq]
    intro hmem
    rcases List.mem_cons.mp hmem with h3 | h3
    · simp at h3
    · obtain ⟨i, hi, hstep⟩ := List.mem_map.mp h3
      simp at hstep

theorem stop_window_no_stopped_event_witness :
    (∃ r, Event.step r ∈
        stream_events "w" (fun _ => waitAct) constExec constShot constElms stopAfterStep1 ∧
        r.step = 1) ∧
    Event.stopped ∉
      stream_events "w" (fun _ => waitAct) constExec constShot constElms stopAfterStep1 := by
  have h := stop_window_no_stopped_event "w" (fun _ => waitAct) constExec constShot
    constElms stopAfterStep1 1
    (by
      intro i j hij hi
      simp only [stopAfterStep1, decide_eq_true_eq] at hi ⊢
      omega)
    (by decide) (by decide) (by decide) (by decide)
    (fun i hi1 hi2 =>
      ⟨fun hh => ActionType.noConfusion hh, fun hh => ActionType.noConfusion hh⟩)
  exact ⟨h.2.1, h.2.2⟩

-- ── Decision engine claims ───────────────────────────────────────────────────

/-- C1 counterexample: when the model call returns successfully but the
response carries no candidates (an empty model response), get_next_action
raises an IndexError to its caller instead of degrading to a fail
Action. -/
theorem empty_candidates_raises :
    (get_next_action "shot" "goal" [] emptyApi).1 =
      Except.error "IndexError: list index out of range" := rfl

/-- C1 amended: exceptions raised by the model call itself are caught and
degrade to a fail Action whose reason embeds the exception text; the
outermost failure mode that is not caught is a well-formed return with an
empty candidates list, which raises. -/
theorem api_error_degrades_to_fail (screenshot_b64 goal : String)
    (conversation : List Content) (api : List Content → Except String Response)
    (e : String)
    (h : api (conversation ++ [user_turn screenshot_b64 goal conversation]) =
      Except.error e) :
    get_next_action screenshot_b64 goal conversation api =
      (Except.ok
        { type := ActionType.fail, reason := some ("Gemini API error: " ++ e) },
       conversation ++ [user_turn screenshot_b64 goal conversation]) := by
  simp only [get_next_action, h]

theorem api_error_degrades_to_fail_witness :
    get_next_action "shot" "goal" [] (fun _ => Except.error "boom") =
      (Except.ok
        { type := ActionType.fail, reason := some "Gemini API error: boom" },
       [user_turn "shot" "goal" []]) :=
  api_error_degrades_to_fail "shot" "goal" [] (fun _ => Except.error "boom")
    "boom" rfl

/-- C10 counterexample: the model call succeeds (it returns a Response, not
an exception) yet the transcript grows by exactly 1, not 2: with an empty
candidates list no model turn is appended (the append raises first), so a
model turn is not appended on every successful call. -/
theorem transcript_plus_one_on_empty_candidates :
    emptyApi ([] ++ [user_turn "s" "g" []]) = Except.ok { candidates := [] } ∧
    (get_next_action "s" "g" [] emptyApi).2.length = 1 := ⟨rfl, rfl⟩

/-- C10 amended: every call to get_next_action appends exactly one user
turn, and appends exactly one model turn iff the model call returns
successfully with at least one candidate; hence the transcript grows by 2
in that case and by 1 when the call raises or the response has no
candidates (the latter path raising to the caller), and it never shrinks
(the prior transcript stays a prefix). -/
theorem transcript_growth_exact (screenshot_b64 goal : String)
    (conversation : List Content) (api : List Content → Except String Response) :
    conversation <+: (get_next_action screenshot_b64 goal conversation api).2 ∧
    (get_next_action screenshot_b64 goal conversation api).2.length =
      conversation.length +
        (match api (conversation ++ [user_turn screenshot_b64 goal conversation]) with
         | Except.error _ => 1
         | Except.ok resp =>
           match resp.candidates with
           | [] => 1
           | _ :: _ => 2) := by
  cases h : api (conversation ++ [user_turn screenshot_b64 goal conversation]) with
  | error e =>
    constructor
    · simp only [get_next_action, h]
      exact List.prefix_append _ _
    · simp only [get_next_action, h, List.length_append, List.length_cons,
        List.length_nil]
  | ok resp =>
    cases hc : resp.candidates with
    | nil =>
      constructor
      · simp only [get_next_action, h, hc]
        exact List.prefix_append _ _
      · simp only [get_next_action, h, hc, List.length_append, List.length_cons,
          List.length_nil]
    | cons c rest =>
      have h2 : (get_next_action screenshot_b64 goal conversation api).2 =
          conversation ++ [user_turn screenshot_b64 goal conversation] ++
            [c.content] := by
        simp only [get_next_action, h, hc]
        cases hp : parse_computer_use_response resp <;> simp
      constructor
      · rw [h2, List.append_assoc]
        exact List.prefix_append _ _
      · rw [h2]
        simp only [h, hc, List.length_append, List.length_cons, List.length_nil]

-- ── Session stream adapter claim ─────────────────────────────────────────────

/-- C9: for every run started through the session adapter and every way the
run can end (normal completion, terminal done or fail, step ceiling,
explicit stop via the flag, or an unexpected exception modelled by crash),
the finally clause leaves the registry without the StopSignal registration
of the session. -/
theorem session_unregistered_on_exit (sid : String) (reg : List String)
    (dec : Nat → Action) (ex : Action → Bool × String) (shot : Nat → String)
    (elms : Nat → Nat) (flag : Nat → Bool) (crash : Option (Nat × String)) :
    ((run_agent sid reg dec ex shot elms flag crash).2.contains sid) = false := by
  simp only [run_agent]
  simp [List.contains_eq_any_beq]

end WebNav
